import Mathlib

/-!
Verification of the ayon-sitesync frontend and of the spec-level
synchronization core.

The repository's available sources are the React frontend of the addon:
`frontend/src/addon/summary.jsx` (summary table, query-string builder,
event handlers), `frontend/src/addon/detail.jsx` (per-file drill-down,
`formatFileSize`), and two variants of `frontend/src/addon/index.jsx`
(the page component; one with hard-coded sites, one fetching them from
`get_user_sites`).  Those are embedded below as executable Lean
definitions, mirroring the JavaScript statement by statement; JS string
interpolation becomes `String.append`, `for ... of` loops over arrays
become `List.foldl`, JS truthiness of a string is `≠ ""` and of a
nullable array is `≠ none`.

The server-side Presence Ledger and Queue Engine are not part of the
available sources; where a claim concerns them they are modelled from
the specification text, and each such definition is marked
`Modelled from the spec:`.
-/

/-! ## Data model of the summary view's lazy parameters (summary.jsx) -/

/-- primereact `FilterMatchMode.CONTAINS` constant. -/
def FilterMatchMode.CONTAINS : String := "contains"

/-- primereact `FilterMatchMode.IN` constant. -/
def FilterMatchMode.IN : String := "in"

/-- A text-filter cell of `lazyParams.filters` (`folder`, `product`):
`{ value, matchMode }` where `value` is a string (empty = no filter). -/
structure TextFilter where
  value : String
  matchMode : String
  deriving DecidableEq, Repr

/-- A multi-select filter cell of `lazyParams.filters` (`representation`,
`localStatus`, `remoteStatus`): `{ value, matchMode }` where `value` is
`null` or an array of selected strings. -/
structure SelectFilter where
  value : Option (List String)
  matchMode : String
  deriving DecidableEq, Repr

/-- The `filters` object of the summary view's `lazyParams`. -/
structure Filters where
  folder : TextFilter
  product : TextFilter
  representation : SelectFilter
  localStatus : SelectFilter
  remoteStatus : SelectFilter
  deriving DecidableEq, Repr

/-- The summary view's `lazyParams` state (pagination, sorting, filters). -/
structure LazyParams where
  first : Nat
  rows : Nat
  page : Nat
  sortField : String
  sortOrder : Int
  filters : Filters
  deriving DecidableEq, Repr

/-- `defaultParams` from summary.jsx. -/
def defaultParams : LazyParams :=
  { first := 0
    rows := 25
    page := 0
    sortField := "folder"
    sortOrder := 1
    filters :=
      { folder := { value := "", matchMode := "contains" }
        product := { value := "", matchMode := "contains" }
        representation := { value := none, matchMode := FilterMatchMode.IN }
        localStatus := { value := none, matchMode := FilterMatchMode.IN }
        remoteStatus := { value := none, matchMode := FilterMatchMode.IN } } }

/-! ## The summary view's query-string builder (summary.jsx) -/

/-- `buildQueryString(localSite, remoteSite, lazyParams)` from summary.jsx,
embedded statement by statement: each JS `url += ...` is one `let url :=`;
a JS `if (x && x.value)` on a text filter tests the string's truthiness
(`≠ ""`), on a multi-select filter it tests the value against `null`
(`≠ none`; note a present-but-empty array is truthy in JS); the
`for (const val of ...)` loops are `List.foldl` over the selected values. -/
def buildQueryString (localSite remoteSite : String) (lazyParams : LazyParams) : String :=
  let url := "?localSite=" ++ localSite ++ "&remoteSite=" ++ remoteSite
  let url := url ++ "&pageLength=" ++ toString lazyParams.rows ++ "&page="
      ++ toString (lazyParams.page + 1)
  let url := url ++ "&sortBy=" ++ lazyParams.sortField
  let url := url ++ "&sortDesc=" ++ (if lazyParams.sortOrder = 1 then "true" else "false")
  let url := if lazyParams.filters.folder.value ≠ "" then
      url ++ "&folderFilter=" ++ lazyParams.filters.folder.value
    else url
  let url := if lazyParams.filters.product.value ≠ "" then
      url ++ "&subsetFilter=" ++ lazyParams.filters.product.value
    else url
  let url := match lazyParams.filters.representation.value with
    | none => url
    | some vals => vals.foldl (fun u val => u ++ "&nameFilter=" ++ val) url
  let url := match lazyParams.filters.localStatus.value with
    | none => url
    | some vals => vals.foldl (fun u val => u ++ "&localStatusFilter=" ++ val) url
  let url := match lazyParams.filters.remoteStatus.value with
    | none => url
    | some vals => vals.foldl (fun u val => u ++ "&remoteStatusFilter=" ++ val) url
  url

/-! ## Rendering a parameter list as a query string

To state what parameters a query string carries, we fix the obvious
encoding: `?k1=v1&k2=v2&...`.  A string equals `renderParams ps` exactly
when it is the query string whose parameters, in order, are `ps` and
nothing else. -/

/-- Render the non-leading parameters: `&k=v` for each pair, in order. -/
def renderTail : List (String × String) → String
  | [] => ""
  | kv :: rest => "&" ++ kv.1 ++ "=" ++ kv.2 ++ renderTail rest

/-- Render a full query string `?k1=v1&k2=v2&...`. -/
def renderParams : List (String × String) → String
  | [] => "?"
  | kv :: rest => "?" ++ kv.1 ++ "=" ++ kv.2 ++ renderTail rest

/-- The parameter list the specification says the summary request carries:
`localSite`, `remoteSite`, `pageLength` = rows, 1-based `page`, `sortBy`,
a `sortDesc` flag, `folderFilter` exactly when the folder filter is
non-empty, `subsetFilter` exactly when the product filter is non-empty,
one `nameFilter`/`localStatusFilter`/`remoteStatusFilter` per selected
value, and nothing else. -/
def specSummaryParams (localSite remoteSite : String) (p : LazyParams) :
    List (String × String) :=
  [("localSite", localSite), ("remoteSite", remoteSite),
   ("pageLength", toString p.rows), ("page", toString (p.page + 1)),
   ("sortBy", p.sortField),
   ("sortDesc", if p.sortOrder = 1 then "true" else "false")]
  ++ (if p.filters.folder.value ≠ "" then [("folderFilter", p.filters.folder.value)] else [])
  ++ (if p.filters.product.value ≠ "" then [("subsetFilter", p.filters.product.value)] else [])
  ++ ((p.filters.representation.value.getD []).map fun v => ("nameFilter", v))
  ++ ((p.filters.localStatus.value.getD []).map fun v => ("localStatusFilter", v))
  ++ ((p.filters.remoteStatus.value.getD []).map fun v => ("remoteStatusFilter", v))

/-! ## Event handlers of the summary view (summary.jsx)

`onSort` and `onFilter` receive the primereact lazy event (carrying the
new sorting/filtering state) and force `first = 0` and `page = 0` before
storing it; `updateSite` stores `defaultParams` with `first` and `page`
forced to `0`. -/

/-- `onSort` from summary.jsx: `event['first'] = 0; event['page'] = 0`. -/
def onSort (event : LazyParams) : LazyParams :=
  { event with first := 0, page := 0 }

/-- `onFilter` from summary.jsx: `event['first'] = 0; event['page'] = 0`. -/
def onFilter (event : LazyParams) : LazyParams :=
  { event with first := 0, page := 0 }

/-- The `lazyParams` value stored by `updateSite` in summary.jsx:
`new_event = defaultParams; new_event['first'] = 0; new_event['page'] = 0`. -/
def updateSiteLazyParams : LazyParams :=
  { defaultParams with first := 0, page := 0 }

/-! ## The detail view (detail.jsx) -/

/-- One file entry of a representation in a `state` response, as read by
the detail view. -/
structure DetailFile where
  baseName : String
  size : Nat
  fileHash : String
  localStatus : String
  remoteStatus : String
  deriving DecidableEq, Repr

/-- One representation of a `state` response, as read by the detail view
(only its `files` list is accessed). -/
structure DetailRepre where
  files : List DetailFile
  deriving DecidableEq, Repr

/-- The body of a `state` response as read by the detail view. -/
structure StateResponse where
  representations : List DetailRepre
  deriving DecidableEq, Repr

/-- One output row built by the detail view. -/
structure DetailRow where
  hash : String
  size : Nat
  baseName : String
  localStatus : String
  remoteStatus : String
  deriving DecidableEq, Repr

/-- The row-building loop of `SiteSyncDetail` (detail.jsx): for each
representation of the response, for each of its files, push a row
`{hash: file.fileHash, size, baseName, localStatus, remoteStatus}` onto
`result`. -/
def buildDetailRows (response : StateResponse) : List DetailRow :=
  response.representations.foldl
    (fun result repre =>
      repre.files.foldl
        (fun result file =>
          result ++ [{ hash := file.fileHash, size := file.size,
                       baseName := file.baseName, localStatus := file.localStatus,
                       remoteStatus := file.remoteStatus }])
        result)
    []

/-- `buildQueryString(representationId, localSite, remoteSite)` from
detail.jsx. -/
def detailBuildQueryString (representationId localSite remoteSite : String) : String :=
  let url := "?localSite=" ++ localSite ++ "&remoteSite=" ++ remoteSite
  let url := url ++ "&representationIds=" ++ representationId
  url

/-! ## The page components (index.jsx, old and new variant)

Both variants read a `params` response `{names, count}` and build
`{name, value}` option objects; the newer variant additionally reads a
`get_user_sites` response `{active_site, remote_site}` and builds the
site dropdown options from it, while the older variant hard-codes the
site pair. -/

/-- A `{name, value}` option object as built by the page components. -/
structure NameOption where
  name : String
  value : String
  deriving DecidableEq, Repr

/-- The body of a `params` response: distinct representation names and a
total count. -/
structure ParamsResponse where
  names : List String
  count : Nat
  deriving DecidableEq, Repr

/-- The body of a `get_user_sites` response. -/
structure UserSitesResponse where
  active_site : List String
  remote_site : List String
  deriving DecidableEq, Repr

/-- `const localSite = 'local'` of the older `SiteSyncPage` (index.jsx). -/
def oldPageLocalSite : String := "local"

/-- `const remoteSite = 'remote'` of the older `SiteSyncPage` (index.jsx). -/
def oldPageRemoteSite : String := "remote"

/-- The `rnames` loop of the older `SiteSyncPage` (index.jsx):
`for (const name of response.data.names) rnames.push({name, value: name})`. -/
def oldPageRepreNames (response : ParamsResponse) : List NameOption :=
  response.names.foldl (fun rnames name => rnames ++ [{ name := name, value := name }]) []

/-- `setTotalCount(response.data.count)` of the older `SiteSyncPage`. -/
def oldPageTotalCount (response : ParamsResponse) : Nat :=
  response.count

/-- The `rnames` loop of the newer `SiteSyncPage` (the variant fetching
`get_user_sites`); textually identical to the older one. -/
def newPageRepreNames (response : ParamsResponse) : List NameOption :=
  response.names.foldl (fun rnames name => rnames ++ [{ name := name, value := name }]) []

/-- `setTotalCount(response.data.count)` of the newer `SiteSyncPage`. -/
def newPageTotalCount (response : ParamsResponse) : Nat :=
  response.count

/-- The `local_sites` loop of the newer `SiteSyncPage`:
`for (const site_name of response.data["active_site"]) local_sites.push({name: site_name, value: site_name})`. -/
def newPageLocalSites (response : UserSitesResponse) : List NameOption :=
  response.active_site.foldl
    (fun local_sites site_name => local_sites ++ [{ name := site_name, value := site_name }]) []

/-- The `remote_sites` loop of the newer `SiteSyncPage`. -/
def newPageRemoteSites (response : UserSitesResponse) : List NameOption :=
  response.remote_site.foldl
    (fun remote_sites site_name => remote_sites ++ [{ name := site_name, value := site_name }]) []

/-- The initial site selection of the summary view (summary.jsx):
`useState(localSites && localSites[0]["value"])`.  On an empty option
list the JS expression has no value (it throws), modelled as `none`. -/
def initialSelectedSite (sites : List NameOption) : Option String :=
  (sites[0]?).map NameOption.value

/-! ## `formatFileSize` (detail.jsx)

The JS function works on IEEE doubles; it is embedded over `ℚ`, which
models every finite double exactly (the claims settled about it concern
branch selection, loop bounds and index safety, none of which depend on
rounding of the division).  `Math.round` is `⌊x + 1/2⌋` (round half
towards positive infinity), `Number.prototype.toFixed` is embedded as
`ratToFixed`, and a JS out-of-bounds array read produces `undefined`,
modelled by the string `"undefined"` in `jsIndex`. -/

/-- JS `Math.round`: round half towards positive infinity. -/
def jsRound (x : ℚ) : ℤ :=
  ⌊x + 1 / 2⌋

/-- The `si` unit array of `formatFileSize`. -/
def siUnits : List String :=
  ["kB", "MB", "GB", "TB", "PB", "EB", "ZB", "YB"]

/-- The binary unit array of `formatFileSize`. -/
def binUnits : List String :=
  ["KiB", "MiB", "GiB", "TiB", "PiB", "EiB", "ZiB", "YiB"]

/-- JS array indexing `units[u]`: the element when `u` is in bounds,
`undefined` otherwise. -/
def jsIndex (units : List String) (u : ℤ) : String :=
  if h : 0 ≤ u ∧ u.toNat < units.length then units.get ⟨u.toNat, h.2⟩ else "undefined"

/-- JS `toFixed(dp)`: sign, then the integer and `dp` fraction digits of
the half-up rounding of `|x| * 10 ^ dp`. -/
def ratToFixed (x : ℚ) (dp : Nat) : String :=
  let sign := if x < 0 then "-" else ""
  let scaled : ℤ := jsRound (|x| * (10 : ℚ) ^ dp)
  let ip := scaled / (10 : ℤ) ^ dp
  let fp := (scaled % (10 : ℤ) ^ dp).toNat
  if dp = 0 then sign ++ toString ip
  else
    let fpStr := toString fp
    sign ++ toString ip ++ "." ++ String.mk (List.replicate (dp - fpStr.length) '0') ++ fpStr

/-- The `do { bytes /= thresh; ++u } while (...)` loop of
`formatFileSize`: one call is one loop iteration; returns the final
`bytes`, the final unit index `u` and the number of iterations
performed.  The loop guard is
`Math.round(Math.abs(bytes) * r) / r >= thresh && u < units.length - 1`. -/
def sizeLoop (thresh r : ℚ) (unitsLen : Nat) (bytes : ℚ) (u : ℤ) (n : Nat) : ℚ × ℤ × Nat :=
  let bytes := bytes / thresh
  let u := u + 1
  if ((jsRound (|bytes| * r) : ℚ) / r ≥ thresh ∧ u < (unitsLen : ℤ) - 1) then
    sizeLoop thresh r unitsLen bytes u (n + 1)
  else (bytes, u, n + 1)
termination_by ((unitsLen : ℤ) - 1 - u).toNat
decreasing_by
  simp_wf
  omega

/-- The loop of `formatFileSize` started the way the function starts it:
`u = -1`, threshold and units chosen by `si`, `r = 10 ** dp`. -/
def formatLoopResult (bytes : ℚ) (si : Bool) (dp : Nat) : ℚ × ℤ × Nat :=
  let thresh : ℚ := if si then 1000 else 1024
  let units := if si then siUnits else binUnits
  sizeLoop thresh ((10 : ℚ) ^ dp) units.length bytes (-1) 0

/-- `formatFileSize(bytes, si = false, dp = 1)` from detail.jsx. -/
def formatFileSize (bytes : ℚ) (si : Bool) (dp : Nat) : String :=
  let thresh : ℚ := if si then 1000 else 1024
  if |bytes| < thresh then
    toString bytes ++ " B"
  else
    let units := if si then siUnits else binUnits
    let res := formatLoopResult bytes si dp
    ratToFixed res.1 dp ++ " " ++ jsIndex units res.2.1

/-! ## The Presence Ledger (spec §4.3) and the Queue Engine's admission
rule (spec §4.4/§5)

The server-side implementation of these components is not among the
available sources; they are modelled from the specification text. -/

/-- The per-site status tokens of the wire contract (spec §6). -/
inductive SyncState where
  | NOT_AVAILABLE
  | IN_PROGRESS
  | AVAILABLE
  | FAILED
  | PAUSED
  deriving DecidableEq, Repr

/-- Modelled from the spec: a `SiteStatus` record (spec §3) — desired
state, current state, retry bookkeeping and last error. -/
structure SiteStatusRec where
  wanted : Bool
  state : SyncState
  retryCount : Nat
  lastError : Option String
  deriving DecidableEq, Repr

/-- Modelled from the spec: a `File` row of the ledger (spec §3). -/
structure LedgerFile where
  baseName : String
  size : Nat
  fileHash : String
  deriving DecidableEq, Repr

/-- Modelled from the spec: a `Representation` as handed to
`upsertPublish` (spec §3) — id and ordered member files (named with a
suffix because Mathlib already has a `Representation`). -/
structure RepresentationRec where
  id : String
  files : List LedgerFile
  deriving DecidableEq, Repr

/-- Modelled from the spec: one ledger file row with its per-site
statuses. -/
structure FileRecord where
  file : LedgerFile
  statuses : List (String × SiteStatusRec)
  deriving DecidableEq, Repr

/-- Modelled from the spec: the Presence Ledger, keyed by representation
id (spec §3/§4.3). -/
abbrev Ledger := List (String × List FileRecord)

/-- Modelled from the spec: `upsertPublish(representation)` of the
Presence Ledger (spec §4.3, server side, not in the available sources):
inserts File rows and initializes SiteStatus as wanted for every site
whose configuration currently marks it active for the project, unwanted
elsewhere; a representation id already present is left untouched, which
the spec requires by demanding idempotence on repeated calls with the
same representation id.  `siteConfig` lists the project's sites with
their active flag. -/
def upsertPublish (siteConfig : List (String × Bool)) (repre : RepresentationRec)
    (ledger : Ledger) : Ledger :=
  match ledger.lookup repre.id with
  | some _ => ledger
  | none =>
    (repre.id,
      repre.files.map fun f =>
        { file := f
          statuses := siteConfig.map fun sc =>
            (sc.1, { wanted := sc.2, state := SyncState.NOT_AVAILABLE,
                     retryCount := 0, lastError := none }) }) :: ledger

/-- Modelled from the spec: an ephemeral `TransferJob` (spec §3) —
file id, source site, destination site, attempt number. -/
structure TransferJob where
  fileId : String
  sourceSite : String
  destinationSite : String
  attempt : Nat
  deriving DecidableEq, Repr

/-- Modelled from the spec: the shared engine state — the set of
in-flight `TransferJob`s plus the Presence Ledger (the only mutable
shared resources, spec §5). -/
structure EngineState where
  inflight : List TransferJob
  ledger : Ledger

/-- Modelled from the spec: the interleaving semantics of the engine
(spec §4.4 step 1 and §5, server side, not in the available sources).
Each constructor is one atomic transition of the serialized decision
point: a publish event upserts into the ledger; a dispatch admits a job
only under the admission rule "no in-flight TransferJob exists for that
(file, destination site) pair"; a completion removes the job and folds
an arbitrary outcome back into the ledger.  Concurrent scan cycles and
publish events are arbitrary interleavings of these transitions. -/
inductive EngineStep : EngineState → EngineState → Prop where
  | publish (cfg : List (String × Bool)) (repre : RepresentationRec) (s : EngineState) :
      EngineStep s ⟨s.inflight, upsertPublish cfg repre s.ledger⟩
  | dispatch (j : TransferJob) (s : EngineState)
      (adm : ∀ j' ∈ s.inflight,
        ¬(j'.fileId = j.fileId ∧ j'.destinationSite = j.destinationSite)) :
      EngineStep s ⟨j :: s.inflight, s.ledger⟩
  | complete (j : TransferJob) (s : EngineState) (ledger' : Ledger) :
      EngineStep s ⟨s.inflight.erase j, ledger'⟩

/-- At most one in-flight `TransferJob` per (file, destination site)
pair. -/
def uniqueInflight (s : EngineState) : Prop :=
  s.inflight.Pairwise fun a b =>
    ¬(a.fileId = b.fileId ∧ a.destinationSite = b.destinationSite)

/-! ## Helper lemmas -/

/-- Appending parameter lists appends their rendered tails. -/
theorem renderTail_append (a b : List (String × String)) :
    renderTail (a ++ b) = renderTail a ++ renderTail b := by
  induction a with
  | nil => simp [renderTail]
  | cons kv rest ih => simp [renderTail, ih, String.append_assoc]

/-- A `url += '&' + key + '=' + val` loop renders its values as the tail
parameters `(key, val)`. -/
theorem foldl_param (key : String) (vals : List String) (url : String) :
    vals.foldl (fun u v => u ++ ("&" ++ key ++ "=") ++ v) url
      = url ++ renderTail (vals.map fun v => (key, v)) := by
  induction vals generalizing url with
  | nil => simp [renderTail]
  | cons v vs ih =>
    rw [List.foldl_cons, ih]
    simp [renderTail, String.append_assoc]

/-- `foldl_param` at the `nameFilter` literal of summary.jsx. -/
theorem foldl_nameFilter (vals : List String) (url : String) :
    vals.foldl (fun u val => u ++ "&nameFilter=" ++ val) url
      = url ++ renderTail (vals.map fun v => ("nameFilter", v)) :=
  foldl_param "nameFilter" vals url

/-- `foldl_param` at the `localStatusFilter` literal of summary.jsx. -/
theorem foldl_localStatusFilter (vals : List String) (url : String) :
    vals.foldl (fun u val => u ++ "&localStatusFilter=" ++ val) url
      = url ++ renderTail (vals.map fun v => ("localStatusFilter", v)) :=
  foldl_param "localStatusFilter" vals url

/-- `foldl_param` at the `remoteStatusFilter` literal of summary.jsx. -/
theorem foldl_remoteStatusFilter (vals : List String) (url : String) :
    vals.foldl (fun u val => u ++ "&remoteStatusFilter=" ++ val) url
      = url ++ renderTail (vals.map fun v => ("remoteStatusFilter", v)) :=
  foldl_param "remoteStatusFilter" vals url

/-- A JS `array.push(g(x))` loop is `map`. -/
theorem foldl_push {α β : Type} (g : α → β) (l : List α) (acc : List β) :
    l.foldl (fun res x => res ++ [g x]) acc = acc ++ l.map g := by
  induction l generalizing acc with
  | nil => simp
  | cons x xs ih => simp [ih]

/-- A loop appending a list per element is `flatMap`. -/
theorem foldl_append_flatMap {α β : Type} (g : α → List β) (l : List α) (acc : List β) :
    l.foldl (fun res x => res ++ g x) acc = acc ++ l.flatMap g := by
  induction l generalizing acc with
  | nil => simp
  | cons x xs ih => simp [ih]

/-! ## Claims about the summary view -/

/-- C1: for every pair of selected sites and every `lazyParams` record,
the summary view's `buildQueryString` produces exactly the query string
whose parameters are `localSite`, `remoteSite`, `pageLength` =
`lazyParams.rows`, the 1-based page `lazyParams.page + 1`, `sortBy` =
`lazyParams.sortField`, a `sortDesc` flag, `folderFilter` exactly when
the folder filter value is non-empty, `subsetFilter` exactly when the
product filter value is non-empty, one repetition of `nameFilter`,
`localStatusFilter` and `remoteStatusFilter` per selected value of the
corresponding multi-valued filter, and no other parameters. -/
theorem summary_buildQueryString_spec (l r : String) (p : LazyParams) :
    buildQueryString l r p = renderParams (specSummaryParams l r p) := by
  obtain ⟨first, rows, page, sortField, sortOrder,
    ⟨⟨fv, fm⟩, ⟨pv, pm⟩, ⟨rv, rm⟩, ⟨lv, lm⟩, ⟨mv, mm⟩⟩⟩ := p
  simp only [buildQueryString, specSummaryParams]
  by_cases hf : fv = "" <;> by_cases hp : pv = "" <;>
    rcases rv with _ | rvals <;> rcases lv with _ | lvals <;> rcases mv with _ | mvals <;>
    simp [hf, hp, renderParams, renderTail_append, renderTail,
      foldl_nameFilter, foldl_localStatusFilter, foldl_remoteStatusFilter,
      ← String.append_assoc]

/-- C8: after `onSort`, `onFilter` or `updateSite` the stored
`lazyParams` satisfy `first = 0` and `page = 0`, so the next request
asks for the first page; `updateSite` additionally resets sorting and
all filters to the defaults (`sortField` `'folder'`, 25 rows, empty
filters). -/
theorem summary_reset_spec (event : LazyParams) :
    (onSort event).first = 0 ∧ (onSort event).page = 0 ∧
    (onFilter event).first = 0 ∧ (onFilter event).page = 0 ∧
    updateSiteLazyParams.first = 0 ∧ updateSiteLazyParams.page = 0 ∧
    updateSiteLazyParams.sortField = "folder" ∧
    updateSiteLazyParams.rows = 25 ∧
    updateSiteLazyParams.filters.folder.value = "" ∧
    updateSiteLazyParams.filters.product.value = "" ∧
    updateSiteLazyParams.filters.representation.value = none ∧
    updateSiteLazyParams.filters.localStatus.value = none ∧
    updateSiteLazyParams.filters.remoteStatus.value = none ∧
    updateSiteLazyParams = defaultParams :=
  ⟨rfl, rfl, rfl, rfl, rfl, rfl, rfl, rfl, rfl, rfl, rfl, rfl, rfl, rfl⟩

/-! ## Claims about the detail view -/

/-- C3: from a `state` response the detail view builds exactly one
output row per file, in response order (representations in order, files
within each representation in order); each row's `hash` is the file's
`fileHash` and its `size`, `baseName`, `localStatus` and `remoteStatus`
are copied unchanged; no other rows appear. -/
theorem detail_rows_spec (response : StateResponse) :
    buildDetailRows response
      = (response.representations.flatMap fun repre => repre.files).map
          (fun file => { hash := file.fileHash, size := file.size,
                         baseName := file.baseName, localStatus := file.localStatus,
                         remoteStatus := file.remoteStatus }) := by
  unfold buildDetailRows
  simp only [foldl_push, foldl_append_flatMap, List.nil_append, List.map_flatMap]

/-- C4: the detail view's request query string is exactly
`?localSite=<localSite>&remoteSite=<remoteSite>&representationIds=<representationId>`:
the three parameters the spec names and nothing else. -/
theorem detail_buildQueryString_spec (representationId localSite remoteSite : String) :
    detailBuildQueryString representationId localSite remoteSite
      = renderParams [("localSite", localSite), ("remoteSite", remoteSite),
                      ("representationIds", representationId)] := by
  simp [detailBuildQueryString, renderParams, renderTail, ← String.append_assoc]

/-! ## Claims about the page components -/

/-- C6: from a `params` response `{names, count}` the page component
sets `totalCount` to `count` and builds the representation-name options
as a list of the same length and order as `names`, each option's `name`
and `value` both equal to the corresponding input name (this holds for
both page variants, whose loops are identical). -/
theorem page_params_spec (response : ParamsResponse) :
    newPageRepreNames response = response.names.map (fun n => { name := n, value := n }) ∧
    (newPageRepreNames response).length = response.names.length ∧
    newPageTotalCount response = response.count ∧
    oldPageRepreNames response = response.names.map (fun n => { name := n, value := n }) ∧
    oldPageTotalCount response = response.count := by
  refine ⟨?_, ?_, rfl, ?_, rfl⟩ <;>
    simp [newPageRepreNames, oldPageRepreNames, foldl_push]

/-- C7: from a `get_user_sites` response the local-site options are
exactly the `active_site` list in order and the remote-site options are
exactly the `remote_site` list in order, each entry with `name` and
`value` equal to the site name; the initially selected local and remote
site are the first elements of the respective lists. -/
theorem user_sites_spec (response : UserSitesResponse) :
    newPageLocalSites response = response.active_site.map (fun s => { name := s, value := s }) ∧
    newPageRemoteSites response = response.remote_site.map (fun s => { name := s, value := s }) ∧
    (∀ a rest, response.active_site = a :: rest →
      initialSelectedSite (newPageLocalSites response) = some a) ∧
    (∀ b rest, response.remote_site = b :: rest →
      initialSelectedSite (newPageRemoteSites response) = some b) := by
  refine ⟨?_, ?_, ?_, ?_⟩
  · simp [newPageLocalSites, foldl_push]
  · simp [newPageRemoteSites, foldl_push]
  · intro a rest h
    simp [initialSelectedSite, newPageLocalSites, foldl_push, h]
  · intro b rest h
    simp [initialSelectedSite, newPageRemoteSites, foldl_push, h]

/-- C7 witness: on the response `{active_site: ["studio"], remote_site:
["gdrive"]}` the options are exactly those sites and the initial
selection is `studio` / `gdrive`. -/
theorem user_sites_spec_witness :
    newPageLocalSites ⟨["studio"], ["gdrive"]⟩ = [{ name := "studio", value := "studio" }] ∧
    initialSelectedSite (newPageLocalSites ⟨["studio"], ["gdrive"]⟩) = some "studio" ∧
    initialSelectedSite (newPageRemoteSites ⟨["studio"], ["gdrive"]⟩) = some "gdrive" :=
  ⟨(user_sites_spec ⟨["studio"], ["gdrive"]⟩).1,
   (user_sites_spec ⟨["studio"], ["gdrive"]⟩).2.2.1 "studio" [] rfl,
   (user_sites_spec ⟨["studio"], ["gdrive"]⟩).2.2.2 "gdrive" [] rfl⟩

/-- C10: the two `SiteSyncPage` implementations compute identical
`repreNames` and `totalCount` from the same `params` response, and when
`get_user_sites` returns `active_site = ['local']` and
`remote_site = ['remote']` the fetched-sites variant initially selects
the same `('local', 'remote')` pair the hard-coded variant always
passes to the summary. -/
theorem pages_agree :
    (∀ response : ParamsResponse,
      oldPageRepreNames response = newPageRepreNames response ∧
      oldPageTotalCount response = newPageTotalCount response) ∧
    initialSelectedSite (newPageLocalSites ⟨["local"], ["remote"]⟩) = some oldPageLocalSite ∧
    initialSelectedSite (newPageRemoteSites ⟨["local"], ["remote"]⟩) = some oldPageRemoteSite :=
  ⟨fun _ => ⟨rfl, rfl⟩, rfl, rfl⟩

/-! ## Claims about the Presence Ledger and the Queue Engine -/

/-- C5: `upsertPublish` is idempotent — calling it twice with the same
representation leaves the Presence Ledger identical to calling it
once. -/
theorem upsertPublish_idempotent (siteConfig : List (String × Bool))
    (repre : RepresentationRec) (ledger : Ledger) :
    upsertPublish siteConfig repre (upsertPublish siteConfig repre ledger)
      = upsertPublish siteConfig repre ledger := by
  unfold upsertPublish
  cases h : ledger.lookup repre.id with
  | some recs => simp [h]
  | none => simp [h, List.lookup]

/-- C2: in every state reachable by interleaved publish, dispatch and
completion transitions from a state with no in-flight jobs, at most one
in-flight `TransferJob` exists per (file, destination site) pair. -/
theorem inflight_unique (L0 : Ledger) (s : EngineState)
    (h : Relation.ReflTransGen EngineStep ⟨[], L0⟩ s) : uniqueInflight s := by
  induction h with
  | refl => exact List.Pairwise.nil
  | tail hab hbc ih =>
    cases hbc with
    | publish cfg repre t => exact ih
    | dispatch j t adm =>
      exact List.Pairwise.cons (fun j' hj' hc => adm j' hj' ⟨hc.1.symm, hc.2.symm⟩) ih
    | complete j t ledger' =>
      exact List.Pairwise.sublist (List.erase_sublist _ _) ih

/-- C2 witness: a concrete two-dispatch interleaving — the same file
admitted towards two different destination sites — reaches a state that
satisfies the uniqueness invariant. -/
theorem inflight_unique_witness :
    uniqueInflight ⟨[⟨"f1", "studio", "gdrive", 0⟩, ⟨"f1", "studio", "box", 0⟩], []⟩ :=
  inflight_unique [] _
    (Relation.ReflTransGen.tail
      (Relation.ReflTransGen.single
        (EngineStep.dispatch ⟨"f1", "studio", "box", 0⟩ ⟨[], []⟩ (by simp)))
      (EngineStep.dispatch ⟨"f1", "studio", "gdrive", 0⟩
        ⟨[⟨"f1", "studio", "box", 0⟩], []⟩ (by decide)))

/-! ## Claims about `formatFileSize` -/

/-- Bounds on the `formatFileSize` loop: the final unit index exceeds
the starting one, is bounded by `unitsLen - 1` unless the loop exited
immediately, and the iteration count is bounded by the fuel the
`u < unitsLen - 1` guard leaves. -/
theorem sizeLoop_le (thresh r : ℚ) (L : Nat) :
    ∀ (k : Nat) (bytes : ℚ) (u : ℤ) (n : Nat), ((L : ℤ) - 1 - u).toNat ≤ k →
      u + 1 ≤ (sizeLoop thresh r L bytes u n).2.1 ∧
      ((sizeLoop thresh r L bytes u n).2.1 ≤ u + 1 ∨
        (sizeLoop thresh r L bytes u n).2.1 ≤ (L : ℤ) - 1) ∧
      (sizeLoop thresh r L bytes u n).2.2 ≤ n + 1 + ((L : ℤ) - 2 - u).toNat := by
  intro k
  induction k with
  | zero =>
    intro bytes u n hk
    rw [sizeLoop]
    rw [if_neg]
    · exact ⟨le_refl _, Or.inl (le_refl _), Nat.le_add_right (n + 1) _⟩
    · rintro ⟨-, hlt⟩
      omega
  | succ k ih =>
    intro bytes u n hk
    rw [sizeLoop]
    split
    · next hcond =>
      obtain ⟨-, hlt⟩ := hcond
      obtain ⟨h1, h2, h3⟩ := ih (bytes / thresh) (u + 1) (n + 1) (by omega)
      refine ⟨by omega, ?_, by omega⟩
      rcases h2 with h2 | h2 <;> exact Or.inr (by omega)
    · exact ⟨le_refl _, Or.inl (le_refl _), Nat.le_add_right (n + 1) _⟩

/-- C9: `formatFileSize` is safe on every finite input: when
`|bytes|` is under the threshold it returns the number suffixed with
`' B'`; otherwise (and in fact always) its division loop performs at
most 8 iterations and its final unit index lies between 0 and
`units.length - 1`, so the `units[u]` access is in bounds. -/
theorem formatFileSize_safe (bytes : ℚ) (si : Bool) (dp : Nat) :
    (|bytes| < (if si then (1000 : ℚ) else 1024) →
      formatFileSize bytes si dp = toString bytes ++ " B") ∧
    0 ≤ (formatLoopResult bytes si dp).2.1 ∧
    (formatLoopResult bytes si dp).2.1
      ≤ ((if si then siUnits else binUnits).length : ℤ) - 1 ∧
    (formatLoopResult bytes si dp).2.2 ≤ 8 := by
  have hlen : (if si then siUnits else binUnits).length = 8 := by
    cases si <;> rfl
  obtain ⟨h1, h2, h3⟩ :=
    sizeLoop_le (if si then 1000 else 1024) ((10 : ℚ) ^ dp)
      ((if si then siUnits else binUnits).length) 9 bytes (-1) 0 (by rw [hlen]; omega)
  refine ⟨?_, ?_, ?_, ?_⟩
  · intro hb
    unfold formatFileSize
    rw [if_pos hb]
  · exact le_trans (by omega) h1
  · unfold formatLoopResult
    rcases h2 with h2 | h2
    · refine le_trans h2 ?_
      rw [hlen]
      omega
    · exact h2
  · refine le_trans h3 ?_
    rw [hlen]
    omega

/-- C9 witness: at `bytes = 3` (below the 1024 threshold, `si = false`,
`dp = 1`) the function takes the `' B'` branch, and the loop bounds
hold there. -/
theorem formatFileSize_safe_witness :
    |(3 : ℚ)| < (if false then (1000 : ℚ) else 1024) ∧
    formatFileSize 3 false 1 = toString (3 : ℚ) ++ " B" ∧
    (formatLoopResult 3 false 1).2.2 ≤ 8 :=
  ⟨by norm_num, (formatFileSize_safe 3 false 1).1 (by norm_num),
   (formatFileSize_safe 3 false 1).2.2.2⟩
